import Mathlib

/-!
Verification of the browser-side OAuth 2.0 Authorization-Code-with-PKCE client:
PKCE material generation (random state/verifier, SHA-256-derived challenge),
the silent-authentication controller (hidden iframe, timeout, postMessage
handler with origin validation), the callback dispatcher (top-level vs framed),
the bootstrap code-exchange path, the interactive-redirect fallback, and the
activity-throttled session monitor.

The JavaScript is shallowly embedded: machine-independent pure computation
(SHA-256, base64, UTF-8, string generation) is translated to executable Lean
functions on `Nat`/`List`/`String`; the event-driven parts (iframe/timer/
listener lifecycle, sessionStorage, session checker) become explicit state
passing, with network results (token exchange, fetch outcomes) supplied as
oracle parameters.
-/

/- ## SHA-256 (as used by `crypto.subtle.digest`) -/

/-- Two to the 32, the word modulus of SHA-256 arithmetic. -/
def w32 : Nat := 4294967296

/-- Rotate right by `n` within 32 bits. -/
def rotr32 (n x : Nat) : Nat := ((x >>> n) ||| (x <<< (32 - n))) % w32

/-- Lowercase sigma-0 of the SHA-256 message schedule. -/
def smallSigma0 (x : Nat) : Nat := (rotr32 7 x) ^^^ (rotr32 18 x) ^^^ (x >>> 3)

/-- Lowercase sigma-1 of the SHA-256 message schedule. -/
def smallSigma1 (x : Nat) : Nat := (rotr32 17 x) ^^^ (rotr32 19 x) ^^^ (x >>> 10)

/-- Uppercase sigma-0 of the SHA-256 compression function. -/
def bigSigma0 (x : Nat) : Nat := (rotr32 2 x) ^^^ (rotr32 13 x) ^^^ (rotr32 22 x)

/-- Uppercase sigma-1 of the SHA-256 compression function. -/
def bigSigma1 (x : Nat) : Nat := (rotr32 6 x) ^^^ (rotr32 11 x) ^^^ (rotr32 25 x)

/-- The 64 SHA-256 round constants. -/
def shaK : List Nat :=
  [1116352408, 1899447441, 3049323471, 3921009573, 961987163,
   1508970993, 2453635748, 2870763221, 3624381080, 310598401,
   607225278, 1426881987, 1925078388, 2162078206, 2614888103,
   3248222580, 3835390401, 4022224774, 264347078, 604807628,
   770255983, 1249150122, 1555081692, 1996064986, 2554220882,
   2821834349, 2952996808, 3210313671, 3336571891, 3584528711,
   113926993, 338241895, 666307205, 773529912, 1294757372,
   1396182291, 1695183700, 1986661051, 2177026350, 2456956037,
   2730485921, 2820302411, 3259730800, 3345764771, 3516065817,
   3600352804, 4094571909, 275423344, 430227734, 506948616,
   659060556, 883997877, 958139571, 1322822218, 1537002063,
   1747873779, 1955562222, 2024104815, 2227730452, 2361852424,
   2428436474, 2756734187, 3204031479, 3329325298]

/-- The SHA-256 initial hash value. -/
def shaH0 : List Nat :=
  [1779033703, 3144134277, 1013904242, 2773480762,
   1359893119, 2600822924, 528734635, 1541459225]

/-- Big-endian byte list: the `n` high-to-low bytes of `v`. -/
def beBytes : Nat → Nat → List Nat
  | 0, _ => []
  | n + 1, v => beBytes n (v >>> 8) ++ [v % 256]

/-- SHA-256 message padding: `0x80`, zeros, then the 64-bit bit length. -/
def sha256Pad (ms : List Nat) : List Nat :=
  let L := ms.length
  let k := (55 + 64 - (L % 64)) % 64
  ms ++ 0x80 :: List.replicate k 0 ++ beBytes 8 (8 * L)

/-- Big-endian 32-bit words from a byte list. -/
def bytesToWords : List Nat → List Nat
  | a :: b :: c :: d :: rest => (((a * 256 + b) * 256 + c) * 256 + d) :: bytesToWords rest
  | _ => []

/-- One step of the SHA-256 message-schedule extension. -/
def shaExtendStep (prev : List Nat) : List Nat :=
  let t := prev.length
  let w2 := prev.getD (t - 2) 0
  let w7 := prev.getD (t - 7) 0
  let w15 := prev.getD (t - 15) 0
  let w16 := prev.getD (t - 16) 0
  prev ++ [(smallSigma1 w2 + w7 + smallSigma0 w15 + w16) % w32]

/-- Extend a 16-word block by `n` schedule words. -/
def shaSchedule (ws : List Nat) : Nat → List Nat
  | 0 => ws
  | n + 1 => shaExtendStep (shaSchedule ws n)

/-- One SHA-256 compression round on the 8-word working state. -/
def shaRound (st : List Nat) (kw : Nat × Nat) : List Nat :=
  match st with
  | [a, b, c, d, e, f, g, h] =>
    let ch := (e &&& f) ^^^ ((4294967295 ^^^ e) &&& g)
    let maj := (a &&& b) ^^^ (a &&& c) ^^^ (b &&& c)
    let t1 := (h + bigSigma1 e + ch + kw.1 + kw.2) % w32
    let t2 := (bigSigma0 a + maj) % w32
    [(t1 + t2) % w32, a, b, c, (d + t1) % w32, e, f, g]
  | _ => st

/-- Compress one 64-byte block into the running hash. -/
def shaCompressBlock (h : List Nat) (block : List Nat) : List Nat :=
  let ws := shaSchedule (bytesToWords block) 48
  let st := (List.zip shaK ws).foldl shaRound h
  (List.zip h st).map fun p => (p.1 + p.2) % w32

/-- Split into 64-byte chunks (fuel-indexed; fuel = list length suffices). -/
def chunks64Aux : Nat → List Nat → List (List Nat)
  | 0, _ => []
  | _ + 1, [] => []
  | fuel + 1, ms => ms.take 64 :: chunks64Aux fuel (ms.drop 64)

/-- SHA-256 digest (32 bytes) of a byte list. -/
def sha256 (ms : List Nat) : List Nat :=
  let padded := sha256Pad ms
  let hs := (chunks64Aux padded.length padded).foldl shaCompressBlock shaH0
  (hs.map (beBytes 4)).flatten

/- ## UTF-8 (`TextEncoder().encode`) -/

/-- UTF-8 bytes of one character. -/
def utf8EncodeChar (c : Char) : List Nat :=
  if c.toNat < 0x80 then [c.toNat]
  else if c.toNat < 0x800 then [0xC0 ||| (c.toNat >>> 6), 0x80 ||| (c.toNat &&& 0x3F)]
  else if c.toNat < 0x10000 then
    [0xE0 ||| (c.toNat >>> 12), 0x80 ||| ((c.toNat >>> 6) &&& 0x3F), 0x80 ||| (c.toNat &&& 0x3F)]
  else
    [0xF0 ||| (c.toNat >>> 18), 0x80 ||| ((c.toNat >>> 12) &&& 0x3F),
     0x80 ||| ((c.toNat >>> 6) &&& 0x3F), 0x80 ||| (c.toNat &&& 0x3F)]

/-- UTF-8 bytes of a string, as `TextEncoder` produces them. -/
def utf8Encode (s : String) : List Nat := s.data.flatMap utf8EncodeChar

/- ## base64 (`btoa`) and the post-processing of the code -/

/-- The standard base64 alphabet used by `btoa`. -/
def b64Chars : List Char :=
  "ABCDEFGHIJKLMNOPQRSTUVWXYZabcdefghijklmnopqrstuvwxyz0123456789+/".data

/-- Character of the standard base64 alphabet at a sextet index. -/
def b64At (i : Nat) : Char := b64Chars.getD i ' '

/-- Standard base64 with padding, as `btoa` produces it on raw bytes. -/
def btoaBytes : List Nat → List Char
  | [] => []
  | [a] =>
    ([a >>> 2, (a % 4) <<< 4].map b64At) ++ ['=', '=']
  | [a, b] =>
    ([a >>> 2, ((a % 4) <<< 4) ||| (b >>> 4), (b % 16) <<< 2].map b64At) ++ ['=']
  | a :: b :: c :: rest =>
    ([a >>> 2, ((a % 4) <<< 4) ||| (b >>> 4), ((b % 16) <<< 2) ||| (c >>> 6), c % 64].map b64At)
      ++ btoaBytes rest

/-- Replacement of plus by minus, one character at a time (first global regex replace). -/
def repPlus (c : Char) : Char := if c = '+' then '-' else c

/-- Replacement of slash by underscore, one character at a time (second global regex replace). -/
def repSlash (c : Char) : Char := if c = '/' then '_' else c

/-- Base64url conversion as the code performs it: `btoa`, then the three
global regex replaces (plus to minus, slash to underscore, equals removed),
in source order. -/
def challengeChars (bs : List Nat) : List Char :=
  (((btoaBytes bs).map repPlus).map repSlash).filter fun c => c ≠ '='

/-- Embeds `generateCodeChallenge` of oauth.js: base64url-converted SHA-256
digest of the UTF-8 encoded verifier. -/
def generateCodeChallenge (verifier : String) : String :=
  String.mk (challengeChars (sha256 (utf8Encode verifier)))

/-- The base64url alphabet (RFC 4648 §5). -/
def b64UrlChars : List Char :=
  "ABCDEFGHIJKLMNOPQRSTUVWXYZabcdefghijklmnopqrstuvwxyz0123456789-_".data

/-- Character of the base64url alphabet at a sextet index. -/
def b64UrlAt (i : Nat) : Char := b64UrlChars.getD i ' '

/-- Modelled from the spec: base64url encoding without padding, per RFC 7636
`S256` (spec §4.1: "Challenge = base64url (no padding) of SHA-256(verifier)").
Kept distinct from `challengeChars` so the btoa-then-replace pipeline of the
code can be compared against the wording of the spec. -/
def base64UrlNoPad : List Nat → List Char
  | [] => []
  | [a] => [a >>> 2, (a % 4) <<< 4].map b64UrlAt
  | [a, b] =>
    [a >>> 2, ((a % 4) <<< 4) ||| (b >>> 4), (b % 16) <<< 2].map b64UrlAt
  | a :: b :: c :: rest =>
    ([a >>> 2, ((a % 4) <<< 4) ||| (b >>> 4), ((b % 16) <<< 2) ||| (c >>> 6), c % 64].map b64UrlAt)
      ++ base64UrlNoPad rest

/- ## PKCE material generation and the sessionStorage store -/

/-- The random-string alphabet of `generateRandomString` (oauth.js line 29). -/
def pkceChars : List Char :=
  "ABCDEFGHIJKLMNOPQRSTUVWXYZabcdefghijklmnopqrstuvwxyz0123456789-._".data

/-- Embeds `generateRandomString`: the cryptographically random bytes that
`crypto.getRandomValues` fills are taken as input; each byte is mapped into
the alphabet by per-byte modulo. -/
def generateRandomString (randomBytes : List Nat) : String :=
  String.mk (randomBytes.map fun b => pkceChars.getD (b % pkceChars.length) ' ')

/-- A stored PKCE record with fields `verifier` and `challenge`, keyed by `state`. -/
structure PkceEntry where
  verifier : String
  challenge : String
deriving DecidableEq

/-- The sessionStorage PKCE store: at most one live entry per key. -/
abbrev PkceStore := List (String × PkceEntry)

/-- Models `sessionStorage.getItem` (then `JSON.parse`): lookup by state key. -/
def storeGet (st : PkceStore) (k : String) : Option PkceEntry :=
  (st.find? fun p => p.1 == k).map Prod.snd

/-- Models `sessionStorage.removeItem`: drop the entry with the given key. -/
def storeRemove (st : PkceStore) (k : String) : PkceStore :=
  st.filter fun p => p.1 != k

/-- Models `sessionStorage.setItem`: overwrite-or-insert at the given key. -/
def storeSet (st : PkceStore) (k : String) (v : PkceEntry) : PkceStore :=
  (k, v) :: storeRemove st k

/-- Embeds `generateAndStorePKCE`: fresh state (32 random bytes) and verifier
(64 random bytes), derived challenge, entry stored keyed by state. -/
def generateAndStorePKCE (stateBytes verifierBytes : List Nat) (st : PkceStore) :
    (String × String × String) × PkceStore :=
  let state := generateRandomString stateBytes
  let verifier := generateRandomString verifierBytes
  let challenge := generateCodeChallenge verifier
  ((state, verifier, challenge), storeSet st state ⟨verifier, challenge⟩)

/- ## Silent-auth controller state machine (`getAccessTokenSilently`) -/

/-- Outcome of `exchangeCodeForToken`, supplied as an oracle: the token
endpoint either yields an access token or the exchange rejects. -/
inductive ExchangeResult
  | success (token : String)
  | failure (message : String)
deriving DecidableEq

/-- A cross-document message as seen by `messageHandler`: its `event.origin`
and the `type`/`code`/`state`/`error` fields of `event.data` (absent fields
are `none`; JS `undefined`). -/
structure OAuthMessage where
  origin : String
  msgType : String
  code : Option String
  state : Option String
  error : Option String
deriving DecidableEq

/-- JS truthiness of an optional string: `undefined`/`null` and the empty
string are falsy. -/
def truthy : Option String → Bool
  | none => false
  | some s => s != ""

deriving instance DecidableEq for Except

/-- The observable state of one `getAccessTokenSilently` attempt: the PKCE
store, the state generated for this attempt, whether the hidden iframe is in
the DOM, whether the timeout is armed, whether `messageHandler` is registered,
and how (if at all) the promise has settled (`Except.error reason` /
`Except.ok token`). -/
structure SilentState where
  store : PkceStore
  expectedState : String
  iframeAttached : Bool
  timerArmed : Bool
  listenerAttached : Bool
  settled : Option (Except String String)
deriving DecidableEq

/-- Settle the promise of the attempt; a second resolve or reject is a no-op. -/
def settle (s : SilentState) (r : Except String String) : SilentState :=
  match s.settled with
  | some _ => s
  | none => { s with settled := some r }

/-- The state right after `getAccessTokenSilently` injects the iframe, arms the
timeout and registers `messageHandler`. -/
def initPending (st : PkceStore) (state : String) : SilentState :=
  { store := st, expectedState := state, iframeAttached := true, timerArmed := true,
    listenerAttached := true, settled := none }

/-- The timeout callback (oauth.js lines 146-149): remove the iframe and reject
with `interaction_required`. If the iframe is already gone, `removeChild`
throws and the rejection is not reached. The callback never touches the
message listener. -/
def timeoutStep (s : SilentState) : SilentState :=
  if s.timerArmed then
    if s.iframeAttached then
      settle { s with timerArmed := false, iframeAttached := false }
        (Except.error "interaction_required")
    else { s with timerArmed := false }
  else s

/-- Embeds `messageHandler` (oauth.js lines 152-184) processing one message: origin
check, `oauthCallback` type check, then clearTimeout / removeChild /
removeEventListener and the error/code/state branching with single-use PKCE
lookup. If the iframe was already removed (timeout fired earlier),
`removeChild` throws after `clearTimeout`, aborting the handler. -/
def messageStep (expectedOrigin : String) (exchange : ExchangeResult)
    (m : OAuthMessage) (s : SilentState) : SilentState :=
  if ¬ s.listenerAttached then s
  else if m.origin ≠ expectedOrigin then s
  else if m.msgType ≠ "oauthCallback" then s
  else
    let s1 := { s with timerArmed := false }
    if ¬ s1.iframeAttached then s1
    else
      let s2 := { s1 with iframeAttached := false, listenerAttached := false }
      if m.error = some "interaction_required" then
        settle s2 (Except.error "interaction_required")
      else if truthy m.error then
        settle s2 (Except.error ("OAuth error: " ++ m.error.getD ""))
      else if truthy m.code ∧ m.state = some s.expectedState then
        match storeGet s2.store s.expectedState with
        | some _ =>
          let s3 := { s2 with store := storeRemove s2.store s.expectedState }
          match exchange with
          | ExchangeResult.success tok => settle s3 (Except.ok tok)
          | ExchangeResult.failure msg => settle s3 (Except.error msg)
        | none => settle s2 (Except.error "PKCE data not found")
      else settle s2 (Except.error "Invalid callback")

/- ## Bootstrap code-exchange path (`loadForgeRock`) -/

/-- The `code`/`state`/`error` URL query parameters (`none` = absent). -/
structure UrlParams where
  code : Option String
  state : Option String
  error : Option String
deriving DecidableEq

/-- Observable outcome of one `loadForgeRock` run. -/
inductive LoadResult
  | oauthErrorLogged (e : String)
  | tokenObtained (token : String)
  | exchangeFailedLogged (msg : String)
  | pkceMissingLogged
  | silentFlow
deriving DecidableEq

/-- Embeds `loadForgeRock` (scripts.js lines 428-469): OAuth error short-circuits;
a truthy `code`/`state` pair consumes the PKCE entry (removed immediately on a
hit, before the exchange) or logs the missing-PKCE CSRF/expiry error;
otherwise fall through to the silent flow. -/
def loadForgeRock (p : UrlParams) (st : PkceStore) (exchange : ExchangeResult) :
    LoadResult × PkceStore :=
  if truthy p.error then (LoadResult.oauthErrorLogged (p.error.getD ""), st)
  else if truthy p.code && truthy p.state then
    let key := p.state.getD ""
    match storeGet st key with
    | some _ =>
      let st1 := storeRemove st key
      match exchange with
      | ExchangeResult.success tok => (LoadResult.tokenObtained tok, st1)
      | ExchangeResult.failure msg => (LoadResult.exchangeFailedLogged msg, st1)
    | none => (LoadResult.pkceMissingLogged, st)
  else (LoadResult.silentFlow, st)

/- ## Callback dispatcher (`forgeRockCallback`) -/

/-- Possible effects of the dispatcher. -/
inductive CallbackAction
  | noop
  | replaceNavigate (url : String)
  | postToParent (code : Option String) (state : Option String) (error : Option String)
      (targetOrigin : String)
deriving DecidableEq

/-- JS `String.replace` with a string pattern: first occurrence only. -/
def listReplaceFirst (pat repl : List Char) : List Char → List Char
  | [] => []
  | c :: rest =>
    if pat.isPrefixOf (c :: rest) then repl ++ (c :: rest).drop pat.length
    else c :: listReplaceFirst pat repl rest

/-- Models the `pathname.replace` call of the dispatcher as JS evaluates it. -/
def jsReplaceFirst (s pat repl : String) : String :=
  String.mk (listReplaceFirst pat.data repl.data s.data)

/-- Embeds `forgeRockCallback` (scripts.js lines 471-519): no-op unless `state` and
one of `code`/`error` are truthy; top-level windows re-navigate via
`location.replace` to the application path with forwarded parameters; framed
windows post the structured oauthCallback message (type, code, state, error)
to the parent at the own origin of the window. -/
def forgeRockCallback (p : UrlParams) (pathname : String) (isTopLevel : Bool)
    (windowOrigin : String) : CallbackAction :=
  if truthy p.state && (truthy p.code || truthy p.error) then
    if isTopLevel then
      let applicationPath := jsReplaceFirst pathname "/callback" "/"
      if truthy p.code then
        CallbackAction.replaceNavigate
          (applicationPath ++ "?code=" ++ p.code.getD "" ++ "&state=" ++ p.state.getD "")
      else
        CallbackAction.replaceNavigate
          (applicationPath ++ "?error=" ++ p.error.getD "" ++ "&state=" ++ p.state.getD "")
    else
      CallbackAction.postToParent p.code p.state p.error windowOrigin
  else CallbackAction.noop

/-- C9 dispatch contract exactly as the claim states it, reading absent as
`none` (so a present-but-empty parameter counts as present): no-op when
`state` is absent or neither `code` nor `error` is present; otherwise a
top-level window re-navigates and a framed window posts to the parent at its
own origin. -/
def callbackDispatchClaim : Prop :=
  ∀ (p : UrlParams) (pathname : String) (isTopLevel : Bool) (windowOrigin : String),
    ((p.state = none ∨ (p.code = none ∧ p.error = none)) →
      forgeRockCallback p pathname isTopLevel windowOrigin = CallbackAction.noop) ∧
    (p.state ≠ none → (p.code ≠ none ∨ p.error ≠ none) → isTopLevel = true →
      ∃ u, forgeRockCallback p pathname isTopLevel windowOrigin
        = CallbackAction.replaceNavigate u) ∧
    (p.state ≠ none → (p.code ≠ none ∨ p.error ≠ none) → isTopLevel = false →
      forgeRockCallback p pathname isTopLevel windowOrigin
        = CallbackAction.postToParent p.code p.state p.error windowOrigin)

/- ## Session monitor (`createSessionChecker`) -/

/-- What the session-validate fetch produced: a thrown network/JSON error, a
non-success HTTP status, or a parsed body whose `valid` field truthiness is
`some v` (`none` = body parsed to a falsy value). -/
inductive ValidateOutcome
  | fetchError
  | httpNotOk (status : Nat)
  | ok (valid : Option Bool)
deriving DecidableEq

/-- Embeds `validateSession` (session.js lines 64-86): errors and non-success statuses
return `false`; otherwise `Boolean(data && data.valid)`. -/
def validateSession : ValidateOutcome → Bool
  | ValidateOutcome.fetchError => false
  | ValidateOutcome.httpNotOk _ => false
  | ValidateOutcome.ok v => v.getD false

/-- Whether the logout fetch itself succeeded or threw. -/
inductive LogoutFetchResult
  | ok
  | throws (msg : String)
deriving DecidableEq

/-- Embeds `doLogout` (session.js lines 29-42): the fetch error is caught and logged
(`Bool` records whether an error was logged); the function never re-throws,
so its `Except` is always `Except.ok`. -/
def doLogout : LogoutFetchResult → Except String Bool
  | LogoutFetchResult.ok => Except.ok false
  | LogoutFetchResult.throws _ => Except.ok true

/-- Observable effects of one `checkIfNeeded` run. -/
structure CheckEffects where
  validated : Bool
  loggedOut : Bool
  reloaded : Bool
deriving DecidableEq

/-- Embeds `checkIfNeeded` (session.js lines 94-110): validate only when the elapsed
time since `lastCheck` reaches the interval, updating `lastCheck` first; on an
invalid session, logout (await never throws) then reload. Returns the new
`lastCheck` and the effects. -/
def checkIfNeeded (interval lastCheck nowTs : Nat)
    (vres : ValidateOutcome) (lres : LogoutFetchResult) : Nat × CheckEffects :=
  if interval ≤ nowTs - lastCheck then
    if validateSession vres then (nowTs, ⟨true, false, false⟩)
    else
      match doLogout lres with
      | Except.ok _ => (nowTs, ⟨true, true, true⟩)
      | Except.error _ => (nowTs, ⟨true, true, false⟩)
  else (lastCheck, ⟨false, false, false⟩)

/-- One user-activity event: its timestamp and the fetch outcomes the
validation would observe at that moment. -/
structure ActivityEvent where
  time : Nat
  vres : ValidateOutcome
  lres : LogoutFetchResult
deriving DecidableEq

/-- Number of validation calls a sequence of activity events causes, starting
from a given `lastCheck` (creation sets `lastCheck = now()`). -/
def countCalls (interval : Nat) : Nat → List ActivityEvent → Nat
  | _, [] => 0
  | lc, ev :: rest =>
    let r := checkIfNeeded interval lc ev.time ev.vres ev.lres
    (if (r.2).validated then 1 else 0) + countCalls interval r.1 rest

/- ## `getAccessToken` -/

/-- How the silent attempt settled. -/
inductive SilentOutcome
  | token (t : String)
  | rejected (reason : String)
deriving DecidableEq

/-- What `getAccessToken` does: the settlement of the promise (`Except.ok v` =
resolved with `v`, where `none` is JS `undefined`; `Except.error` = rejected),
and whether `redirectToLogin` was invoked. -/
structure GetTokenResult where
  value : Except String (Option String)
  redirected : Bool
deriving DecidableEq

/-- Embeds `getAccessToken` (oauth.js lines 207-219): return the silent token;
on rejection, redirect (without awaiting) exactly for `interaction_required`,
falling off the function (resolving with `undefined`); re-throw otherwise. -/
def getAccessToken : SilentOutcome → GetTokenResult
  | SilentOutcome.token t => ⟨Except.ok (some t), false⟩
  | SilentOutcome.rejected r =>
    if r = "interaction_required" then ⟨Except.ok none, true⟩
    else ⟨Except.error r, false⟩

/- ## Helper lemmas: base64url refinement and byte bounds -/

theorem repChar_eq (i : Nat) (h : i < 64) :
    repSlash (repPlus (b64At i)) = b64UrlAt i := by
  interval_cases i <;> decide

theorem urlChar_ne (i : Nat) (h : i < 64) : (b64UrlAt i = '=') = False := by
  interval_cases i <;> decide

theorem pad_maps_to_pad : repSlash (repPlus '=') = '=' := rfl

theorem shr2_lt {a : Nat} (ha : a < 256) : a >>> 2 < 64 := by
  simp [Nat.shiftRight_eq_div_pow]; omega

theorem shl4_lt (a : Nat) : (a % 4) <<< 4 < 64 := by
  simp [Nat.shiftLeft_eq]; omega

theorem shl2_lt (a : Nat) : (a % 16) <<< 2 < 64 := by
  simp [Nat.shiftLeft_eq]; omega

theorem shr4_lt {a : Nat} (ha : a < 256) : a >>> 4 < 64 := by
  simp [Nat.shiftRight_eq_div_pow]; omega

theorem shr6_lt {a : Nat} (ha : a < 256) : a >>> 6 < 64 := by
  simp [Nat.shiftRight_eq_div_pow]; omega

theorem or_lt_64 {x y : Nat} (hx : x < 64) (hy : y < 64) : x ||| y < 64 := by
  have h := Nat.or_lt_two_pow (n := 6) (x := x) (y := y) (by omega) (by omega)
  omega

theorem challengeChars_eq (bs : List Nat) (hb : ∀ b ∈ bs, b < 256) :
    challengeChars bs = base64UrlNoPad bs := by
  induction bs using btoaBytes.induct with
  | case1 => rfl
  | case2 a =>
    have ha : a < 256 := hb a (by simp)
    simp [challengeChars, btoaBytes, base64UrlNoPad, pad_maps_to_pad,
      repChar_eq _ (shr2_lt ha), repChar_eq _ (shl4_lt a),
      urlChar_ne _ (shr2_lt ha), urlChar_ne _ (shl4_lt a)]
  | case3 a b =>
    have ha : a < 256 := hb a (by simp)
    have hab : ((a % 4) <<< 4) ||| (b >>> 4) < 64 :=
      or_lt_64 (shl4_lt a) (shr4_lt (hb b (by simp)))
    simp [challengeChars, btoaBytes, base64UrlNoPad, pad_maps_to_pad,
      repChar_eq _ (shr2_lt ha), repChar_eq _ hab, repChar_eq _ (shl2_lt b),
      urlChar_ne _ (shr2_lt ha), urlChar_ne _ hab, urlChar_ne _ (shl2_lt b)]
  | case4 a b c rest ih =>
    have ha : a < 256 := hb a (by simp)
    have hc : c < 256 := hb c (by simp)
    have hab : ((a % 4) <<< 4) ||| (b >>> 4) < 64 :=
      or_lt_64 (shl4_lt a) (shr4_lt (hb b (by simp)))
    have hbc : ((b % 16) <<< 2) ||| (c >>> 6) < 64 := or_lt_64 (shl2_lt b) (shr6_lt hc)
    have hc64 : c % 64 < 64 := by omega
    have ih1 := ih fun x hx => hb x (by simp [hx])
    simp only [challengeChars, List.map_map, ne_eq, decide_not] at ih1
    simp [challengeChars, btoaBytes, base64UrlNoPad, ih1,
      repChar_eq _ (shr2_lt ha), repChar_eq _ hab, repChar_eq _ hbc, repChar_eq _ hc64,
      urlChar_ne _ (shr2_lt ha), urlChar_ne _ hab, urlChar_ne _ hbc, urlChar_ne _ hc64]

theorem beBytes_lt (n : Nat) : ∀ v, ∀ b ∈ beBytes n v, b < 256 := by
  induction n with
  | zero => intro v b hb; simp [beBytes] at hb
  | succ n ih =>
    intro v b hb
    simp only [beBytes, List.mem_append, List.mem_singleton] at hb
    rcases hb with h | h
    · exact ih _ b h
    · omega

theorem sha256_lt (ms : List Nat) : ∀ b ∈ sha256 ms, b < 256 := by
  intro b hb
  simp only [sha256, List.mem_flatten, List.mem_map] at hb
  obtain ⟨l, ⟨w, _, rfl⟩, hbl⟩ := hb
  exact beBytes_lt 4 w b hbl

/- ## Helper lemmas: PKCE store -/

theorem storeGet_remove (st : PkceStore) (k : String) :
    storeGet (storeRemove st k) k = none := by
  have h : (storeRemove st k).find? (fun p => p.1 == k) = none := by
    rw [List.find?_eq_none]
    intro x hx
    have hf := List.of_mem_filter hx
    simp at hf ⊢
    exact hf
  simp [storeGet, h]

/- ## Claims -/

/-- C1 (code bug evidence): the timeout callback of `getAccessTokenSilently`
never detaches the message listener — `timeoutStep` leaves `listenerAttached`
unchanged on every state, and on the armed pending state the timeout rejects
with `interaction_required` while the listener is still attached, contradicting
"the message listener is removed on every exit path (success, error,
timeout)". -/
theorem silentAuth_timeout_leaves_listener_attached :
    (∀ s : SilentState, (timeoutStep s).listenerAttached = s.listenerAttached) ∧
    (timeoutStep (initPending [("s1", ⟨"v1", "c1"⟩)] "s1")).listenerAttached = true ∧
    (timeoutStep (initPending [("s1", ⟨"v1", "c1"⟩)] "s1")).settled
      = some (Except.error "interaction_required") := by
  refine ⟨fun s => ?_, rfl, rfl⟩
  rcases s with ⟨st, es, ifr, tm, lis, se⟩
  cases tm <;> cases ifr <;> cases se <;> rfl

/-- C2: a message whose origin differs from the origin of the redirect URI leaves
the whole silent-auth state (timer, iframe, listener, PKCE store, settlement)
untouched: `messageStep` is the identity, so the attempt stays pending and can
still time out normally. -/
theorem messageStep_foreign_origin_no_mutation (expectedOrigin : String)
    (exchange : ExchangeResult) (m : OAuthMessage) (s : SilentState)
    (h : m.origin ≠ expectedOrigin) :
    messageStep expectedOrigin exchange m s = s := by
  simp [messageStep, h]

/-- Witness for C2 at a concrete foreign-origin message. -/
theorem messageStep_foreign_origin_no_mutation_witness :
    ("https://evil.example" : String) ≠ "https://app.example" ∧
    messageStep "https://app.example" (ExchangeResult.success "tok")
        ⟨"https://evil.example", "oauthCallback", some "code1", some "s1", none⟩
        (initPending [("s1", ⟨"v1", "c1"⟩)] "s1")
      = initPending [("s1", ⟨"v1", "c1"⟩)] "s1" :=
  ⟨by decide,
   messageStep_foreign_origin_no_mutation "https://app.example"
     (ExchangeResult.success "tok")
     ⟨"https://evil.example", "oauthCallback", some "code1", some "s1", none⟩
     (initPending [("s1", ⟨"v1", "c1"⟩)] "s1") (by decide)⟩

/-- C3: PKCE entries are single-use. Removing a found entry empties the key;
`loadForgeRock` consuming a stored entry leaves the store without it
(regardless of the exchange outcome), so a second run with the same `state`
yields the missing-PKCE (`CsrfOrExpiryError`) outcome; and `messageStep`
accepting a code message removes the entry from the store in the same way. -/
theorem pkce_entry_single_use (st : PkceStore) (k code o : String) (e : PkceEntry)
    (x1 x2 : ExchangeResult)
    (hget : storeGet st k = some e) (hk : k ≠ "") (hc : code ≠ "") :
    storeGet (storeRemove st k) k = none ∧
    (loadForgeRock ⟨some code, some k, none⟩ st x1).2 = storeRemove st k ∧
    (loadForgeRock ⟨some code, some k, none⟩
        (loadForgeRock ⟨some code, some k, none⟩ st x1).2 x2).1
      = LoadResult.pkceMissingLogged ∧
    (messageStep o x1 ⟨o, "oauthCallback", some code, some k, none⟩
        (initPending st k)).store = storeRemove st k := by
  have htc : truthy (some code) = true := by simp [truthy, hc]
  have htk : truthy (some k) = true := by simp [truthy, hk]
  have hload : (loadForgeRock ⟨some code, some k, none⟩ st x1).2 = storeRemove st k := by
    cases x1 <;> simp [loadForgeRock, truthy, hc, hk, hget]
  refine ⟨storeGet_remove st k, hload, ?_, ?_⟩
  · rw [hload]
    cases x2 <;> simp [loadForgeRock, truthy, hc, hk, storeGet_remove]
  · cases x1 <;>
      simp [messageStep, initPending, settle, truthy, hc, hk, hget]

/-- Witness for C3 at a concrete store, state and code. -/
theorem pkce_entry_single_use_witness :
    storeGet [("s1", PkceEntry.mk "v1" "c1")] "s1" = some (PkceEntry.mk "v1" "c1") ∧
    storeGet (storeRemove [("s1", PkceEntry.mk "v1" "c1")] "s1") "s1" = none ∧
    (loadForgeRock ⟨some "code1", some "s1", none⟩
        (loadForgeRock ⟨some "code1", some "s1", none⟩ [("s1", PkceEntry.mk "v1" "c1")]
          (ExchangeResult.success "tok")).2 (ExchangeResult.success "tok")).1
      = LoadResult.pkceMissingLogged :=
  ⟨by decide,
   (pkce_entry_single_use [("s1", PkceEntry.mk "v1" "c1")] "s1" "code1" "https://app.example"
      (PkceEntry.mk "v1" "c1") (ExchangeResult.success "tok") (ExchangeResult.success "tok")
      (by decide) (by decide) (by decide)).1,
   (pkce_entry_single_use [("s1", PkceEntry.mk "v1" "c1")] "s1" "code1" "https://app.example"
      (PkceEntry.mk "v1" "c1") (ExchangeResult.success "tok") (ExchangeResult.success "tok")
      (by decide) (by decide) (by decide)).2.2.1⟩

set_option maxRecDepth 10000 in
/-- C4: the function `generateCodeChallenge` (the spec name is `deriveChallenge`) is, for every
verifier string, exactly the unpadded base64url encoding of the SHA-256 hash
of the UTF-8 verifier bytes (RFC 7636 S256), and it reproduces the RFC 7636
test vector byte-exactly. Determinism is inherent: it is a pure function of
the verifier. -/
theorem generateCodeChallenge_rfc7636 :
    (∀ v : String, generateCodeChallenge v
        = String.mk (base64UrlNoPad (sha256 (utf8Encode v)))) ∧
    generateCodeChallenge "dBjftJeZ4CVP-mB92K27uhbUJU1p1r_wW1gFWFOEjXk"
      = "E9Melhoa2OwvFrEMTJguCHaoeK1t8URWbuGJSstw-cM" :=
  ⟨fun v => congrArg String.mk (challengeChars_eq _ (sha256_lt (utf8Encode v))),
   by decide⟩

/-- C5 counterexample: the generation alphabet `A-Za-z0-9-._` has 65 symbols,
not 66 as the claim states (26 + 26 + 10 + 3 = 65). -/
theorem pkceAlphabet_not_66 :
    pkceChars.length = 65 ∧ ¬ pkceChars.length = 66 := by decide

/-- C5 (amended to 65 symbols): a state generated from 32 random bytes has
length 32, a verifier generated from 64 random bytes has length 64, every
character of both lies in the 65-symbol alphabet `A-Za-z0-9-._`, and each
character is obtained by per-byte modulo-65 indexing into that alphabet. -/
theorem generateRandomString_length_alphabet (sb vb : List Nat) (st : PkceStore)
    (hs : sb.length = 32) (hv : vb.length = 64) :
    pkceChars.length = 65 ∧
    ((generateAndStorePKCE sb vb st).1.1).length = 32 ∧
    ((generateAndStorePKCE sb vb st).1.2.1).length = 64 ∧
    (∀ c ∈ ((generateAndStorePKCE sb vb st).1.1).data, c ∈ pkceChars) ∧
    (∀ c ∈ ((generateAndStorePKCE sb vb st).1.2.1).data, c ∈ pkceChars) ∧
    (∀ bytes : List Nat, generateRandomString bytes
        = String.mk (bytes.map fun b => pkceChars.getD (b % 65) ' ')) := by
  have hlen : pkceChars.length = 65 := by decide
  have hmem : ∀ b : Nat, pkceChars.getD (b % pkceChars.length) ' ' ∈ pkceChars := by
    intro b
    have h : b % pkceChars.length < pkceChars.length := Nat.mod_lt _ (by omega)
    rw [List.getD_eq_getElem _ _ h]
    exact List.getElem_mem h
  refine ⟨hlen, ?_, ?_, ?_, ?_, ?_⟩
  · simp [generateAndStorePKCE, generateRandomString, String.length, hs]
  · simp [generateAndStorePKCE, generateRandomString, String.length, hv]
  · intro c hc
    simp [generateAndStorePKCE, generateRandomString] at hc
    obtain ⟨b, _, rfl⟩ := hc
    simpa using hmem b
  · intro c hc
    simp [generateAndStorePKCE, generateRandomString] at hc
    obtain ⟨b, _, rfl⟩ := hc
    simpa using hmem b
  · intro bytes
    simp [generateRandomString, hlen]

/-- Witness for the amended C5 claim at concrete 32- and 64-byte inputs. -/
theorem generateRandomString_length_alphabet_witness :
    (List.replicate 32 0).length = 32 ∧
    ((generateAndStorePKCE (List.replicate 32 0) (List.replicate 64 0) []).1.1).length = 32 ∧
    ((generateAndStorePKCE (List.replicate 32 0) (List.replicate 64 0) []).1.2.1).length = 64 :=
  ⟨by decide,
   (generateRandomString_length_alphabet (List.replicate 32 0) (List.replicate 64 0) []
      (by decide) (by decide)).2.1,
   (generateRandomString_length_alphabet (List.replicate 32 0) (List.replicate 64 0) []
      (by decide) (by decide)).2.2.1⟩

/- ## Helper lemmas: session monitor throttling -/

theorem countCalls_zero (interval lc : Nat) (evs : List ActivityEvent)
    (h : ∀ e ∈ evs, e.time - lc < interval) : countCalls interval lc evs = 0 := by
  induction evs with
  | nil => rfl
  | cons e rest ih =>
    have he : e.time - lc < interval := h e (by simp)
    have hcond : ¬ interval ≤ e.time - lc := by omega
    simp [countCalls, checkIfNeeded, hcond]
    exact ih fun x hx => h x (by simp [hx])

theorem countCalls_le_one (interval a b : Nat) (evs : List ActivityEvent)
    (hw : b - a < interval) :
    ∀ lc, (∀ e ∈ evs, a ≤ e.time ∧ e.time ≤ b) → countCalls interval lc evs ≤ 1 := by
  induction evs with
  | nil => intro lc _; simp [countCalls]
  | cons e rest ih =>
    intro lc hall
    by_cases hcond : interval ≤ e.time - lc
    · have hz : countCalls interval e.time rest = 0 := by
        apply countCalls_zero
        intro x hx
        have h1 := hall x (by simp [hx])
        have h2 := hall e (by simp)
        omega
      rcases e with ⟨t, vres, lres⟩
      cases hv : validateSession vres <;> cases lres <;>
        simp_all [countCalls, checkIfNeeded, doLogout]
    · rcases e with ⟨t, vres, lres⟩
      simp only [countCalls, checkIfNeeded, if_neg hcond]
      simpa using ih lc fun x hx => hall x (by simp [hx])

/-- C6 counterexample: with `checkIntervalMs = 100` and the checker created at
time 0, activity events at times 50 and 200 are spaced 150 > 100 apart, yet
only one validation call is made (the first event is a no-op because only 50ms
elapsed since creation), refuting "two events spaced more than checkIntervalMs
apart trigger two calls". -/
theorem sessionChecker_spaced_events_single_call :
    countCalls 100 0
        [⟨50, ValidateOutcome.ok (some true), LogoutFetchResult.ok⟩,
         ⟨200, ValidateOutcome.ok (some true), LogoutFetchResult.ok⟩] = 1 ∧
    100 < 200 - 50 := by decide

/-- C6 (amended): a validation call is issued exactly when the elapsed time
since the last check reaches `checkIntervalMs`, and otherwise the event is a
no-op (state unchanged); any number of events inside a window shorter than
`checkIntervalMs` trigger at most one call; and two events spaced more than
`checkIntervalMs` apart trigger two calls provided the first event itself
occurs at least `checkIntervalMs` after the last check. -/
theorem sessionChecker_throttle :
    (∀ interval lc t vres lres,
      ((checkIfNeeded interval lc t vres lres).2.validated = true ↔ interval ≤ t - lc) ∧
      (¬ interval ≤ t - lc →
        checkIfNeeded interval lc t vres lres = (lc, ⟨false, false, false⟩))) ∧
    (∀ interval a b lc evs, b - a < interval →
      (∀ e ∈ evs, a ≤ e.time ∧ e.time ≤ b) → countCalls interval lc evs ≤ 1) ∧
    (∀ interval lc e1 e2, interval ≤ e1.time - lc → interval < e2.time - e1.time →
      countCalls interval lc [e1, e2] = 2) := by
  refine ⟨?_, ?_, ?_⟩
  · intro interval lc t vres lres
    constructor
    · by_cases hcond : interval ≤ t - lc
      · cases hv : validateSession vres <;> cases lres <;>
          simp [checkIfNeeded, hcond, hv, doLogout]
      · simp [checkIfNeeded, hcond]
    · intro hcond
      simp [checkIfNeeded, hcond]
  · intro interval a b lc evs hw hall
    exact countCalls_le_one interval a b evs hw lc hall
  · intro interval lc e1 e2 h1 h2
    rcases e1 with ⟨t1, v1, l1⟩
    rcases e2 with ⟨t2, v2, l2⟩
    dsimp only at h1 h2
    have h2' : interval ≤ t2 - t1 := by omega
    cases hv1 : validateSession v1 <;> cases l1 <;>
      cases hv2 : validateSession v2 <;> cases l2 <;>
        simp_all [countCalls, checkIfNeeded, doLogout]

/-- Witness for the amended C6 claim: three events in a 50ms window with
interval 100 give at most one call; two events at 100 and 250 (the first a
full interval after the last check at 0) give exactly two calls. -/
theorem sessionChecker_throttle_witness :
    countCalls 100 0
        [⟨100, ValidateOutcome.ok (some true), LogoutFetchResult.ok⟩,
         ⟨120, ValidateOutcome.ok (some true), LogoutFetchResult.ok⟩,
         ⟨150, ValidateOutcome.ok (some true), LogoutFetchResult.ok⟩] ≤ 1 ∧
    countCalls 100 0
        [⟨100, ValidateOutcome.ok (some true), LogoutFetchResult.ok⟩,
         ⟨250, ValidateOutcome.ok (some true), LogoutFetchResult.ok⟩] = 2 :=
  ⟨sessionChecker_throttle.2.1 100 100 150 0 _ (by decide)
     (by intro e he; fin_cases he <;> exact ⟨by decide, by decide⟩),
   sessionChecker_throttle.2.2 100 0
     ⟨100, ValidateOutcome.ok (some true), LogoutFetchResult.ok⟩
     ⟨250, ValidateOutcome.ok (some true), LogoutFetchResult.ok⟩
     (by decide) (by decide)⟩

/-- C8: `getAccessToken` redirects to interactive login exactly when the
silent attempt rejected with `interaction_required`; every other rejection is
re-thrown unchanged with no redirect, and a silent token is returned with no
redirect. -/
theorem getAccessToken_redirect_iff_interaction_required :
    (∀ r, (getAccessToken (SilentOutcome.rejected r)).redirected = true
        ↔ r = "interaction_required") ∧
    (∀ r, r ≠ "interaction_required" →
      getAccessToken (SilentOutcome.rejected r) = ⟨Except.error r, false⟩) ∧
    (∀ t, getAccessToken (SilentOutcome.token t) = ⟨Except.ok (some t), false⟩) := by
  refine ⟨fun r => ?_, fun r hr => ?_, fun t => rfl⟩
  · by_cases h : r = "interaction_required" <;> simp [getAccessToken, h]
  · simp [getAccessToken, hr]

/-- Witness for C8: a non-`interaction_required` rejection propagates with no
redirect. -/
theorem getAccessToken_redirect_iff_interaction_required_witness :
    ("OAuth error: access_denied" : String) ≠ "interaction_required" ∧
    getAccessToken (SilentOutcome.rejected "OAuth error: access_denied")
      = ⟨Except.error "OAuth error: access_denied", false⟩ :=
  ⟨by decide,
   getAccessToken_redirect_iff_interaction_required.2.1 "OAuth error: access_denied"
     (by decide)⟩

/-- C10: on an `interaction_required` rejection, `getAccessToken` invokes the
redirect (without awaiting it) and falls off the end of the function, so its
promise resolves with `undefined` (`Except.ok none`) — not with a token, not a
rejection, and not an unsettled promise. -/
theorem getAccessToken_interaction_required_resolves_undefined :
    getAccessToken (SilentOutcome.rejected "interaction_required")
      = ⟨Except.ok none, true⟩ := rfl

/-- C9 counterexample: for the URL `/callback?state=&code=abc` the `state`
parameter is present (`some ""`) and `code` is present, so the claim requires
a top-level re-navigation, but the truthiness test of the code treats the empty
`state` as absent and does nothing. -/
theorem forgeRockCallback_claim_false : ¬ callbackDispatchClaim := by
  intro h
  obtain ⟨u, hu⟩ :=
    (h ⟨some "abc", some "", none⟩ "/callback" true "https://app.example").2.1
      (by simp) (by simp) rfl
  simp [forgeRockCallback, truthy] at hu

/-- C9 (amended: "present" strengthened to "present and nonempty", which is
what the truthiness tests of the code check): the dispatcher is a no-op unless
`state` is truthy and `code` or `error` is truthy; otherwise a top-level
window history-replaces to the application base path (`/callback` stripped)
forwarding `code`/`state`, or `error`/`state` when no truthy code; and a
framed window posts the structured oauthCallback message (type, code, state,
error) to the parent with the target origin equal to its own origin (never a
wildcard). -/
theorem forgeRockCallback_dispatch (p : UrlParams) (pathname windowOrigin : String) :
    (¬ (truthy p.state = true ∧ (truthy p.code = true ∨ truthy p.error = true)) →
      ∀ top, forgeRockCallback p pathname top windowOrigin = CallbackAction.noop) ∧
    (truthy p.state = true → truthy p.code = true →
      forgeRockCallback p pathname true windowOrigin
        = CallbackAction.replaceNavigate
            (jsReplaceFirst pathname "/callback" "/" ++ "?code=" ++ p.code.getD ""
              ++ "&state=" ++ p.state.getD "")) ∧
    (truthy p.state = true → truthy p.code = false → truthy p.error = true →
      forgeRockCallback p pathname true windowOrigin
        = CallbackAction.replaceNavigate
            (jsReplaceFirst pathname "/callback" "/" ++ "?error=" ++ p.error.getD ""
              ++ "&state=" ++ p.state.getD "")) ∧
    (truthy p.state = true → (truthy p.code = true ∨ truthy p.error = true) →
      forgeRockCallback p pathname false windowOrigin
        = CallbackAction.postToParent p.code p.state p.error windowOrigin) := by
  refine ⟨?_, ?_, ?_, ?_⟩ <;>
    cases hs : truthy p.state <;> cases hcd : truthy p.code <;> cases he : truthy p.error <;>
      simp [forgeRockCallback, hs, hcd, he]

/-- Witness for the amended C9 claim: a top-level callback with truthy state and
code re-navigates with the forwarded query parameters. -/
theorem forgeRockCallback_dispatch_witness :
    truthy (some "s1") = true ∧ truthy (some "c1") = true ∧
    forgeRockCallback ⟨some "c1", some "s1", none⟩ "/callback" true "https://app.example"
      = CallbackAction.replaceNavigate
          (jsReplaceFirst "/callback" "/callback" "/" ++ "?code=" ++ (some "c1").getD ""
            ++ "&state=" ++ (some "s1").getD "") :=
  ⟨by decide, by decide,
   (forgeRockCallback_dispatch ⟨some "c1", some "s1", none⟩ "/callback"
      "https://app.example").2.1 (by decide) (by decide)⟩
